import Mathlib

/-!
Verification of the multi-company cash control POS receipt patches.

The repository patches a point-of-sale host in two files:

* `static/src/js/pos_order_extension.js` — two variants of a `PosOrder`
  patch.  Variant A stores `order_company_data` and defaults
  `is_fiscal_order` with a `!== undefined` ternary; Variant B stores
  `company_data` and defaults `is_fiscal_order` with nullish coalescing
  (`??`).  Both override `export_for_printing`.
* `static/src/js/pos_receipt_patch.js` — a `PosStore` patch overriding
  `getReceiptHeaderData`.

JavaScript values are embedded as `JsVal`; JS objects as association
lists of string keys (`JsObj`).  Reading an absent property yields
`undefined`; writing a property keeps the position of an existing key and
appends otherwise, matching JS object semantics.  The files are ES
modules (strict mode), so the member assignment
`result.headerData.company = ...` on a primitive, non-object `headerData`
raises a TypeError; this is modelled by returning `none`.
-/

/-- A JavaScript runtime value, as far as this code base observes one:
`undefined`, `null`, booleans, numbers, strings and plain objects. -/
inductive JsVal : Type where
  | undefined : JsVal
  | null : JsVal
  | bool : Bool → JsVal
  | num : Int → JsVal
  | str : String → JsVal
  | obj : List (String × JsVal) → JsVal

/-- A JavaScript object: an ordered list of key/value properties. -/
abbrev JsObj := List (String × JsVal)

/-- JavaScript truthiness: `undefined`, `null`, `false`, `0` and `""` are
falsy; every object is truthy. -/
def truthy : JsVal → Bool
  | .undefined => false
  | .null => false
  | .bool b => b
  | .num n => n != 0
  | .str s => s != ""
  | .obj _ => true

/-- Property read `o.k` on an object: the value at the first occurrence of
the key, `undefined` when the key is absent. -/
def getField : JsObj → String → JsVal
  | [], _ => .undefined
  | (k', v) :: rest, k => if k' = k then v else getField rest k

/-- Property write `o.k = v` on an object: overwrite in place when the key
exists, append otherwise. -/
def setField : JsObj → String → JsVal → JsObj
  | [], k, v => [(k, v)]
  | (k', v') :: rest, k, v =>
      if k' = k then (k, v) :: rest else (k', v') :: setField rest k v

/-- Whether an object carries the key. -/
def hasKey : JsObj → String → Bool
  | [], _ => false
  | (k', _) :: rest, k => k' == k || hasKey rest k

/-- Property read on an arbitrary value: boxing a primitive never exposes
the keys this code reads, so non-objects yield `undefined`. -/
def getProp : JsVal → String → JsVal
  | .obj fields, k => getField fields k
  | _, _ => .undefined

/-- JavaScript `a || b`. -/
def jsOr (a b : JsVal) : JsVal := if truthy a then a else b

/-- `x !== undefined` is false exactly on this predicate. -/
def isUndefined : JsVal → Bool
  | .undefined => true
  | _ => false

/-- The values `x ?? d` replaces with the default `d`. -/
def isNullish : JsVal → Bool
  | .undefined => true
  | .null => true
  | _ => false

namespace VariantA

/-- First `PosOrder` patch of `pos_order_extension.js`:
`setup(vals)` after `super.setup(vals)` has produced `self`:
`this.is_fiscal_order = vals.is_fiscal_order !== undefined ? vals.is_fiscal_order : true;`
`this.non_fiscal_qr_data = vals.non_fiscal_qr_data || false;`
`this.order_company_data = vals.order_company_data || false;` -/
def setup (self vals : JsObj) : JsObj :=
  let s1 := setField self "is_fiscal_order"
      (if !isUndefined (getField vals "is_fiscal_order") then
        getField vals "is_fiscal_order"
      else .bool true)
  let s2 := setField s1 "non_fiscal_qr_data"
      (jsOr (getField vals "non_fiscal_qr_data") (.bool false))
  setField s2 "order_company_data"
      (jsOr (getField vals "order_company_data") (.bool false))

/-- First `export_for_printing` override: `result` is the object returned
by the host `super` call.
`if (this.order_company_data && result.headerData) { result.headerData.company = this.order_company_data; }`
then `result.is_fiscal_order = this.is_fiscal_order;`
`result.non_fiscal_qr_data = this.non_fiscal_qr_data;`.
The member assignment on a truthy non-object `headerData` raises a
strict-mode TypeError, modelled as `none`. -/
def export_for_printing (self result : JsObj) : Option JsObj :=
  match
    (if truthy (getField self "order_company_data")
        && truthy (getField result "headerData") then
      match getField result "headerData" with
      | .obj hd =>
          some (setField result "headerData"
            (.obj (setField hd "company" (getField self "order_company_data"))))
      | _ => none
    else some result) with
  | some r =>
      some (setField
        (setField r "is_fiscal_order" (getField self "is_fiscal_order"))
        "non_fiscal_qr_data" (getField self "non_fiscal_qr_data"))
  | none => none

end VariantA

namespace VariantB

/-- Second `PosOrder` patch of `pos_order_extension.js`:
`this.company_data = vals.company_data || false;`
`this.is_fiscal_order = vals.is_fiscal_order ?? true;`
`this.non_fiscal_qr_data = vals.non_fiscal_qr_data || false;` -/
def setup (self vals : JsObj) : JsObj :=
  let s1 := setField self "company_data"
      (jsOr (getField vals "company_data") (.bool false))
  let s2 := setField s1 "is_fiscal_order"
      (if isNullish (getField vals "is_fiscal_order") then .bool true
      else getField vals "is_fiscal_order")
  setField s2 "non_fiscal_qr_data"
      (jsOr (getField vals "non_fiscal_qr_data") (.bool false))

/-- Second `export_for_printing` override, identical to the first except
that it reads `this.company_data`. -/
def export_for_printing (self result : JsObj) : Option JsObj :=
  match
    (if truthy (getField self "company_data")
        && truthy (getField result "headerData") then
      match getField result "headerData" with
      | .obj hd =>
          some (setField result "headerData"
            (.obj (setField hd "company" (getField self "company_data"))))
      | _ => none
    else some result) with
  | some r =>
      some (setField
        (setField r "is_fiscal_order" (getField self "is_fiscal_order"))
        "non_fiscal_qr_data" (getField self "non_fiscal_qr_data"))
  | none => none

end VariantB

/-- `PosStore.getReceiptHeaderData(order)` from `pos_receipt_patch.js`:
`data` is the object returned by the host `super` call.
`if (order) { data.is_fiscal_order = order.is_fiscal_order || false;
data.non_fiscal_qr_data = order.non_fiscal_qr_data || false; }`. -/
def getReceiptHeaderData (order : JsVal) (data : JsObj) : JsObj :=
  if truthy order then
    let d1 := setField data "is_fiscal_order"
        (jsOr (getProp order "is_fiscal_order") (.bool false))
    setField d1 "non_fiscal_qr_data"
        (jsOr (getProp order "non_fiscal_qr_data") (.bool false))
  else data

/-! Concrete data used by the witnesses. -/

/-- A concrete company override blob. -/
def coNew : JsVal := .obj [("name", .str "New Co")]

/-- A Variant A order carrying the override. -/
def selfA0 : JsObj := [("order_company_data", coNew)]

/-- A Variant B order carrying the override. -/
def selfB0 : JsObj := [("company_data", coNew)]

/-- A host base export whose `headerData.company` is already set. -/
def e0 : JsObj :=
  [("headerData", .obj [("company", .obj [("name", .str "Old Co")])])]

/-- Scenario B raw input bag. -/
def valsScnB : JsObj :=
  [("is_fiscal_order", .bool false), ("non_fiscal_qr_data", .str "QR123")]

/-- A malformed base export whose `headerData` is a truthy primitive. -/
def eBad : JsObj := [("headerData", .str "oops")]

/-- The sentinel discipline: a value that is either truthy or exactly the
boolean `false`. -/
def truthyOrFalse (v : JsVal) : Prop := truthy v = true ∨ v = .bool false

/-! Basic lemmas about the object operations. -/

@[simp]
theorem getField_setField_self (o : JsObj) (k : String) (v : JsVal) :
    getField (setField o k v) k = v := by
  induction o with
  | nil => simp [getField, setField]
  | cons p t ih =>
      obtain ⟨k', v'⟩ := p
      by_cases h : k' = k
      · simp [getField, setField, h]
      · simp [getField, setField, h, ih]

@[simp]
theorem getField_setField_of_ne (o : JsObj) (k k' : String) (v : JsVal)
    (h : k' ≠ k) : getField (setField o k v) k' = getField o k' := by
  induction o with
  | nil =>
      simp only [setField, getField]
      rw [if_neg (Ne.symm h)]
  | cons p t ih =>
      obtain ⟨k'', v''⟩ := p
      by_cases hk : k'' = k
      · subst hk
        simp only [setField, if_pos rfl, getField]
        rw [if_neg (Ne.symm h), if_neg (Ne.symm h)]
      · simp only [setField, if_neg hk, getField]
        by_cases hk' : k'' = k'
        · rw [if_pos hk', if_pos hk']
        · rw [if_neg hk', if_neg hk', ih]

@[simp]
theorem hasKey_setField (o : JsObj) (k k' : String) (v : JsVal) :
    hasKey (setField o k v) k' = (k == k' || hasKey o k') := by
  induction o with
  | nil => simp [hasKey, setField]
  | cons p t ih =>
      obtain ⟨k'', v''⟩ := p
      by_cases hk : k'' = k
      · subst hk
        simp [hasKey, setField]
      · simp only [setField, if_neg hk, hasKey, ih]
        cases h1 : (k'' == k') <;> cases h2 : (k == k') <;> simp

/-- Writing back the value an object already carries leaves it unchanged. -/
theorem setField_absorb (o : JsObj) (k : String)
    (h : hasKey o k = true) : setField o k (getField o k) = o := by
  induction o with
  | nil => simp [hasKey] at h
  | cons p t ih =>
      obtain ⟨k', v'⟩ := p
      by_cases hk : k' = k
      · subst hk
        simp [getField, setField]
      · simp only [hasKey, Bool.or_eq_true, beq_iff_eq, hk, false_or] at h
        simp [getField, setField, hk, ih h]

@[simp] theorem truthy_obj (fields : JsObj) : truthy (.obj fields) = true := rfl

@[simp] theorem truthy_undefined : truthy .undefined = false := rfl

@[simp] theorem truthy_null : truthy .null = false := rfl

@[simp] theorem truthy_bool (b : Bool) : truthy (.bool b) = b := rfl

/-- `a || false` is either a truthy value or exactly `false`. -/
theorem jsOr_false_cases (a : JsVal) :
    truthy (jsOr a (.bool false)) = true ∨ jsOr a (.bool false) = .bool false := by
  by_cases h : truthy a = true
  · exact Or.inl (by simp [jsOr, h])
  · exact Or.inr (by simp [jsOr, h])

/-- `a || b` falls back to `b` exactly on falsy `a`. -/
theorem jsOr_of_falsy (a b : JsVal) (h : truthy a = false) : jsOr a b = b := by
  simp [jsOr, h]

theorem jsOr_of_truthy (a b : JsVal) (h : truthy a = true) : jsOr a b = a := by
  simp [jsOr, h]

/-- Shape of the Variant A export when the override applies. -/
theorem exportA_eq_of_obj (self e : JsObj) (hd : JsObj)
    (hc : truthy (getField self "order_company_data") = true)
    (hh : getField e "headerData" = .obj hd) :
    VariantA.export_for_printing self e =
      some (setField
        (setField
          (setField e "headerData"
            (.obj (setField hd "company" (getField self "order_company_data"))))
          "is_fiscal_order" (getField self "is_fiscal_order"))
        "non_fiscal_qr_data" (getField self "non_fiscal_qr_data")) := by
  simp [VariantA.export_for_printing, hc, hh]

/-- Shape of the Variant A export when the guard fails. -/
theorem exportA_eq_of_skip (self e : JsObj)
    (hg : (truthy (getField self "order_company_data")
        && truthy (getField e "headerData")) = false) :
    VariantA.export_for_printing self e =
      some (setField
        (setField e "is_fiscal_order" (getField self "is_fiscal_order"))
        "non_fiscal_qr_data" (getField self "non_fiscal_qr_data")) := by
  simp [VariantA.export_for_printing, hg]

/-- Shape of the Variant B export when the override applies. -/
theorem exportB_eq_of_obj (self e : JsObj) (hd : JsObj)
    (hc : truthy (getField self "company_data") = true)
    (hh : getField e "headerData" = .obj hd) :
    VariantB.export_for_printing self e =
      some (setField
        (setField
          (setField e "headerData"
            (.obj (setField hd "company" (getField self "company_data"))))
          "is_fiscal_order" (getField self "is_fiscal_order"))
        "non_fiscal_qr_data" (getField self "non_fiscal_qr_data")) := by
  simp [VariantB.export_for_printing, hc, hh]

/-- Shape of the Variant B export when the guard fails. -/
theorem exportB_eq_of_skip (self e : JsObj)
    (hg : (truthy (getField self "company_data")
        && truthy (getField e "headerData")) = false) :
    VariantB.export_for_printing self e =
      some (setField
        (setField e "is_fiscal_order" (getField self "is_fiscal_order"))
        "non_fiscal_qr_data" (getField self "non_fiscal_qr_data")) := by
  simp [VariantB.export_for_printing, hg]

/-- Claim C1: for every order whose company-override field
(`order_company_data` in Variant A, `company_data` in Variant B) is truthy
and every base export whose `headerData` is an object, the print export
succeeds and its `headerData.company` is exactly the override value — a
wholesale replacement, not a merge. -/
theorem c1_company_override_wholesale (selfA selfB e : JsObj) (hd : JsObj)
    (hA : truthy (getField selfA "order_company_data") = true)
    (hB : truthy (getField selfB "company_data") = true)
    (hh : getField e "headerData" = .obj hd) :
    (∃ r, VariantA.export_for_printing selfA e = some r ∧
        getProp (getField r "headerData") "company"
          = getField selfA "order_company_data") ∧
    (∃ r, VariantB.export_for_printing selfB e = some r ∧
        getProp (getField r "headerData") "company"
          = getField selfB "company_data") := by
  constructor
  · exact ⟨_, exportA_eq_of_obj selfA e hd hA hh, by simp [getProp]⟩
  · exact ⟨_, exportB_eq_of_obj selfB e hd hB hh, by simp [getProp]⟩

/-- Witness for C1 at a concrete order and base export. -/
theorem c1_witness :
    (∃ r, VariantA.export_for_printing selfA0 e0 = some r ∧
        getProp (getField r "headerData") "company"
          = getField selfA0 "order_company_data") ∧
    (∃ r, VariantB.export_for_printing selfB0 e0 = some r ∧
        getProp (getField r "headerData") "company"
          = getField selfB0 "company_data") :=
  c1_company_override_wholesale selfA0 selfB0 e0
    [("company", .obj [("name", .str "Old Co")])] rfl rfl rfl

/-- Claim C2: on a raw input bag lacking `is_fiscal_order` both setup
variants default it to `true`; a lacking `non_fiscal_qr_data` and a
lacking company-override field default to the sentinel `false` — never
`undefined` or an empty string. -/
theorem c2_setup_defaults (selfA selfB vals : JsObj) :
    (getField vals "is_fiscal_order" = .undefined →
      getField (VariantA.setup selfA vals) "is_fiscal_order" = .bool true ∧
      getField (VariantB.setup selfB vals) "is_fiscal_order" = .bool true) ∧
    (getField vals "non_fiscal_qr_data" = .undefined →
      getField (VariantA.setup selfA vals) "non_fiscal_qr_data" = .bool false ∧
      getField (VariantB.setup selfB vals) "non_fiscal_qr_data" = .bool false) ∧
    (getField vals "order_company_data" = .undefined →
      getField (VariantA.setup selfA vals) "order_company_data" = .bool false) ∧
    (getField vals "company_data" = .undefined →
      getField (VariantB.setup selfB vals) "company_data" = .bool false) := by
  refine ⟨fun h => ⟨?_, ?_⟩, fun h => ⟨?_, ?_⟩, fun h => ?_, fun h => ?_⟩ <;>
    simp [VariantA.setup, VariantB.setup, h, isUndefined, isNullish, jsOr]

/-- Witness for C2: the empty raw input bag `{}` yields exactly
`is_fiscal_order = true`, `non_fiscal_qr_data = false` and a `false`
company override, in both variants (Scenario A). -/
theorem c2_witness :
    getField (VariantA.setup [] []) "is_fiscal_order" = .bool true ∧
    getField (VariantB.setup [] []) "is_fiscal_order" = .bool true ∧
    getField (VariantA.setup [] []) "non_fiscal_qr_data" = .bool false ∧
    getField (VariantB.setup [] []) "non_fiscal_qr_data" = .bool false ∧
    getField (VariantA.setup [] []) "order_company_data" = .bool false ∧
    getField (VariantB.setup [] []) "company_data" = .bool false :=
  ⟨((c2_setup_defaults [] [] []).1 rfl).1,
   ((c2_setup_defaults [] [] []).1 rfl).2,
   ((c2_setup_defaults [] [] []).2.1 rfl).1,
   ((c2_setup_defaults [] [] []).2.1 rfl).2,
   (c2_setup_defaults [] [] []).2.2.1 rfl,
   (c2_setup_defaults [] [] []).2.2.2 rfl⟩

/-- Claim C3: for every order object and every base header-data object,
`getReceiptHeaderData` sets `is_fiscal_order` and `non_fiscal_qr_data` on
its output, defaulting each to `false` when absent on the order.  The
output depends only on the order and the base header data, so the
equations hold whatever ran before — in particular whether or not
`export_for_printing` was previously invoked on the same order. -/
theorem c3_header_fields_always_set (order : JsObj) (data : JsObj) :
    getField (getReceiptHeaderData (.obj order) data) "is_fiscal_order"
      = jsOr (getField order "is_fiscal_order") (.bool false) ∧
    getField (getReceiptHeaderData (.obj order) data) "non_fiscal_qr_data"
      = jsOr (getField order "non_fiscal_qr_data") (.bool false) ∧
    (getField order "is_fiscal_order" = .undefined →
      getField (getReceiptHeaderData (.obj order) data) "is_fiscal_order"
        = .bool false) ∧
    (getField order "non_fiscal_qr_data" = .undefined →
      getField (getReceiptHeaderData (.obj order) data) "non_fiscal_qr_data"
        = .bool false) := by
  refine ⟨?_, ?_, fun h => ?_, fun h => ?_⟩
  · simp [getReceiptHeaderData, getProp]
  · simp [getReceiptHeaderData, getProp]
  · simp [getReceiptHeaderData, getProp, h, jsOr]
  · simp [getReceiptHeaderData, getProp, h, jsOr]

/-- Witness for C3 at the empty order and empty base header data. -/
theorem c3_witness :
    getField (getReceiptHeaderData (.obj []) []) "is_fiscal_order"
      = .bool false ∧
    getField (getReceiptHeaderData (.obj []) []) "non_fiscal_qr_data"
      = .bool false :=
  ⟨(c3_header_fields_always_set [] []).2.2.1 rfl,
   (c3_header_fields_always_set [] []).2.2.2 rfl⟩

/-- Writing a key the object already maps to that value is a no-op. -/
theorem setField_absorb_of (o : JsObj) (k : String) (v : JsVal)
    (hk : hasKey o k = true) (hv : getField o k = v) :
    setField o k v = o := by
  rw [← hv]
  exact setField_absorb o k hk

/-- Re-running the two unconditional field writes of
`export_for_printing` changes nothing. -/
theorem tail_absorb (o : JsObj) (x y : JsVal) :
    setField (setField
      (setField (setField o "is_fiscal_order" x) "non_fiscal_qr_data" y)
      "is_fiscal_order" x) "non_fiscal_qr_data" y
    = setField (setField o "is_fiscal_order" x) "non_fiscal_qr_data" y := by
  have h1 : setField
      (setField (setField o "is_fiscal_order" x) "non_fiscal_qr_data" y)
      "is_fiscal_order" x
      = setField (setField o "is_fiscal_order" x) "non_fiscal_qr_data" y :=
    setField_absorb_of _ _ _ (by simp) (by simp)
  rw [h1]
  exact setField_absorb_of _ _ _ (by simp) (by simp)

/-- Inversion for the Variant A export: a successful run either performed
the override on an object `headerData`, or skipped it because the guard
failed. -/
theorem exportA_inv (self e r : JsObj)
    (hr : VariantA.export_for_printing self e = some r) :
    (∃ hd, getField e "headerData" = .obj hd ∧
      truthy (getField self "order_company_data") = true ∧
      r = setField (setField
        (setField e "headerData"
          (.obj (setField hd "company" (getField self "order_company_data"))))
        "is_fiscal_order" (getField self "is_fiscal_order"))
        "non_fiscal_qr_data" (getField self "non_fiscal_qr_data")) ∨
    ((truthy (getField self "order_company_data")
        && truthy (getField e "headerData")) = false ∧
      r = setField (setField e "is_fiscal_order"
        (getField self "is_fiscal_order"))
        "non_fiscal_qr_data" (getField self "non_fiscal_qr_data")) := by
  by_cases hg : (truthy (getField self "order_company_data")
      && truthy (getField e "headerData")) = true
  · have hc : truthy (getField self "order_company_data") = true :=
      (Bool.and_eq_true _ _ ▸ hg).1
    have hh : truthy (getField e "headerData") = true :=
      (Bool.and_eq_true _ _ ▸ hg).2
    cases he : getField e "headerData" with
    | obj hd =>
        left
        refine ⟨hd, rfl, hc, ?_⟩
        have := exportA_eq_of_obj self e hd hc he
        rw [this] at hr
        exact (Option.some_injective _ hr).symm
    | undefined => rw [he] at hh; simp at hh
    | null => rw [he] at hh; simp at hh
    | bool b =>
        rw [he] at hh
        simp only [truthy_bool] at hh
        subst hh
        unfold VariantA.export_for_printing at hr
        rw [if_pos hg, he] at hr
        simp at hr
    | num n =>
        unfold VariantA.export_for_printing at hr
        rw [if_pos hg, he] at hr
        simp at hr
    | str st =>
        unfold VariantA.export_for_printing at hr
        rw [if_pos hg, he] at hr
        simp at hr
  · right
    have hg' : (truthy (getField self "order_company_data")
        && truthy (getField e "headerData")) = false :=
      Bool.eq_false_iff.mpr hg
    refine ⟨hg', ?_⟩
    have := exportA_eq_of_skip self e hg'
    rw [this] at hr
    exact (Option.some_injective _ hr).symm

/-- Inversion for the Variant B export. -/
theorem exportB_inv (self e r : JsObj)
    (hr : VariantB.export_for_printing self e = some r) :
    (∃ hd, getField e "headerData" = .obj hd ∧
      truthy (getField self "company_data") = true ∧
      r = setField (setField
        (setField e "headerData"
          (.obj (setField hd "company" (getField self "company_data"))))
        "is_fiscal_order" (getField self "is_fiscal_order"))
        "non_fiscal_qr_data" (getField self "non_fiscal_qr_data")) ∨
    ((truthy (getField self "company_data")
        && truthy (getField e "headerData")) = false ∧
      r = setField (setField e "is_fiscal_order"
        (getField self "is_fiscal_order"))
        "non_fiscal_qr_data" (getField self "non_fiscal_qr_data")) := by
  by_cases hg : (truthy (getField self "company_data")
      && truthy (getField e "headerData")) = true
  · have hc : truthy (getField self "company_data") = true :=
      (Bool.and_eq_true _ _ ▸ hg).1
    have hh : truthy (getField e "headerData") = true :=
      (Bool.and_eq_true _ _ ▸ hg).2
    cases he : getField e "headerData" with
    | obj hd =>
        left
        refine ⟨hd, rfl, hc, ?_⟩
        have := exportB_eq_of_obj self e hd hc he
        rw [this] at hr
        exact (Option.some_injective _ hr).symm
    | undefined => rw [he] at hh; simp at hh
    | null => rw [he] at hh; simp at hh
    | bool b =>
        rw [he] at hh
        simp only [truthy_bool] at hh
        subst hh
        unfold VariantB.export_for_printing at hr
        rw [if_pos hg, he] at hr
        simp at hr
    | num n =>
        unfold VariantB.export_for_printing at hr
        rw [if_pos hg, he] at hr
        simp at hr
    | str st =>
        unfold VariantB.export_for_printing at hr
        rw [if_pos hg, he] at hr
        simp at hr
  · right
    have hg' : (truthy (getField self "company_data")
        && truthy (getField e "headerData")) = false :=
      Bool.eq_false_iff.mpr hg
    refine ⟨hg', ?_⟩
    have := exportB_eq_of_skip self e hg'
    rw [this] at hr
    exact (Option.some_injective _ hr).symm

/-- Claim C4: when the company-override field is the absent sentinel
`false`, the print export leaves `headerData` exactly as the host provided
it, while still copying `is_fiscal_order` and `non_fiscal_qr_data` from
the order onto the top level of the export, in both variants. -/
theorem c4_no_override_frame (selfA selfB e : JsObj)
    (hA : getField selfA "order_company_data" = .bool false)
    (hB : getField selfB "company_data" = .bool false) :
    (∃ r, VariantA.export_for_printing selfA e = some r ∧
        getField r "headerData" = getField e "headerData" ∧
        getField r "is_fiscal_order" = getField selfA "is_fiscal_order" ∧
        getField r "non_fiscal_qr_data"
          = getField selfA "non_fiscal_qr_data") ∧
    (∃ r, VariantB.export_for_printing selfB e = some r ∧
        getField r "headerData" = getField e "headerData" ∧
        getField r "is_fiscal_order" = getField selfB "is_fiscal_order" ∧
        getField r "non_fiscal_qr_data"
          = getField selfB "non_fiscal_qr_data") := by
  constructor
  · refine ⟨_, exportA_eq_of_skip selfA e (by simp [hA]), ?_, ?_, ?_⟩ <;> simp
  · refine ⟨_, exportB_eq_of_skip selfB e (by simp [hB]), ?_, ?_, ?_⟩ <;> simp

/-- Witness for C4, Scenario B: an order built from the raw input
`{is_fiscal_order: false, non_fiscal_qr_data: "QR123"}` exported over a
base export with `headerData.company = {name: "Old Co"}`. -/
theorem c4_witness :
    (∃ r, VariantA.export_for_printing (VariantA.setup [] valsScnB) e0
        = some r ∧
        getField r "headerData" = getField e0 "headerData" ∧
        getField r "is_fiscal_order"
          = getField (VariantA.setup [] valsScnB) "is_fiscal_order" ∧
        getField r "non_fiscal_qr_data"
          = getField (VariantA.setup [] valsScnB) "non_fiscal_qr_data") ∧
    (∃ r, VariantB.export_for_printing (VariantB.setup [] valsScnB) e0
        = some r ∧
        getField r "headerData" = getField e0 "headerData" ∧
        getField r "is_fiscal_order"
          = getField (VariantB.setup [] valsScnB) "is_fiscal_order" ∧
        getField r "non_fiscal_qr_data"
          = getField (VariantB.setup [] valsScnB) "non_fiscal_qr_data") :=
  c4_no_override_frame (VariantA.setup [] valsScnB)
    (VariantB.setup [] valsScnB) e0 rfl rfl

/-- Claim C5: an explicit `is_fiscal_order: false` in the raw input bag is
kept by both setup variants — the default `true` never overrides it. -/
theorem c5_explicit_false_kept (selfA selfB vals : JsObj)
    (h : getField vals "is_fiscal_order" = .bool false) :
    getField (VariantA.setup selfA vals) "is_fiscal_order" = .bool false ∧
    getField (VariantB.setup selfB vals) "is_fiscal_order" = .bool false := by
  constructor
  · simp [VariantA.setup, h, isUndefined]
  · simp [VariantB.setup, h, isNullish]

/-- Witness for C5 at the raw input `{is_fiscal_order: false}`. -/
theorem c5_witness :
    getField (VariantA.setup [] [("is_fiscal_order", .bool false)])
      "is_fiscal_order" = .bool false ∧
    getField (VariantB.setup [] [("is_fiscal_order", .bool false)])
      "is_fiscal_order" = .bool false :=
  c5_explicit_false_kept [] [] [("is_fiscal_order", .bool false)] rfl

/-- Claim C6: both extension points only augment the host object.  A
successful export changes no key other than `is_fiscal_order`,
`non_fiscal_qr_data` and `headerData`, and the only change to
`headerData` is the `company` sub-field; the header-data operation
changes no key other than the two custom fields. -/
theorem c6_superset_invariant (selfA selfB e data : JsObj) (ov : JsVal) :
    (∀ r, VariantA.export_for_printing selfA e = some r →
      (∀ k, k ≠ "is_fiscal_order" → k ≠ "non_fiscal_qr_data" →
        k ≠ "headerData" → getField r k = getField e k) ∧
      (getField r "headerData" = getField e "headerData" ∨
        ∃ hd, getField e "headerData" = .obj hd ∧
          getField r "headerData"
            = .obj (setField hd "company"
                (getField selfA "order_company_data")) ∧
          ∀ k, k ≠ "company" →
            getField (setField hd "company"
              (getField selfA "order_company_data")) k = getField hd k)) ∧
    (∀ r, VariantB.export_for_printing selfB e = some r →
      (∀ k, k ≠ "is_fiscal_order" → k ≠ "non_fiscal_qr_data" →
        k ≠ "headerData" → getField r k = getField e k) ∧
      (getField r "headerData" = getField e "headerData" ∨
        ∃ hd, getField e "headerData" = .obj hd ∧
          getField r "headerData"
            = .obj (setField hd "company" (getField selfB "company_data")) ∧
          ∀ k, k ≠ "company" →
            getField (setField hd "company"
              (getField selfB "company_data")) k = getField hd k)) ∧
    (∀ k, k ≠ "is_fiscal_order" → k ≠ "non_fiscal_qr_data" →
      getField (getReceiptHeaderData ov data) k = getField data k) := by
  refine ⟨fun r hr => ?_, fun r hr => ?_, fun k h1 h2 => ?_⟩
  · rcases exportA_inv selfA e r hr with ⟨hd, hh, hc, hrEq⟩ | ⟨hg, hrEq⟩
    · subst hrEq
      constructor
      · intro k h1 h2 h3
        rw [getField_setField_of_ne _ _ _ _ h2,
          getField_setField_of_ne _ _ _ _ h1,
          getField_setField_of_ne _ _ _ _ h3]
      · exact Or.inr ⟨hd, hh, by simp,
          fun k hk => getField_setField_of_ne _ _ _ _ hk⟩
    · subst hrEq
      constructor
      · intro k h1 h2 _
        rw [getField_setField_of_ne _ _ _ _ h2,
          getField_setField_of_ne _ _ _ _ h1]
      · left
        simp
  · rcases exportB_inv selfB e r hr with ⟨hd, hh, hc, hrEq⟩ | ⟨hg, hrEq⟩
    · subst hrEq
      constructor
      · intro k h1 h2 h3
        rw [getField_setField_of_ne _ _ _ _ h2,
          getField_setField_of_ne _ _ _ _ h1,
          getField_setField_of_ne _ _ _ _ h3]
      · exact Or.inr ⟨hd, hh, by simp,
          fun k hk => getField_setField_of_ne _ _ _ _ hk⟩
    · subst hrEq
      constructor
      · intro k h1 h2 _
        rw [getField_setField_of_ne _ _ _ _ h2,
          getField_setField_of_ne _ _ _ _ h1]
      · left
        simp
  · by_cases ht : truthy ov = true
    · simp [getReceiptHeaderData, ht, getField_setField_of_ne _ _ _ _ h1,
        getField_setField_of_ne _ _ _ _ h2]
    · simp [getReceiptHeaderData, Bool.eq_false_iff.mpr ht]

/-- Witness for C6: a host field `total` survives both exports over a
base export that also carries a `headerData`, and a host field `company`
survives the header-data operation. -/
theorem c6_witness :
    (getField [("headerData", .obj [("company", coNew)]), ("total", .num 42),
        ("is_fiscal_order", .undefined), ("non_fiscal_qr_data", .undefined)] "total"
      = getField [("headerData",
          .obj [("company", .obj [("name", .str "Old Co")])]),
          ("total", .num 42)] "total") ∧
    (getField [("headerData", .obj [("company", coNew)]), ("total", .num 42),
        ("is_fiscal_order", .undefined), ("non_fiscal_qr_data", .undefined)] "total"
      = getField [("headerData",
          .obj [("company", .obj [("name", .str "Old Co")])]),
          ("total", .num 42)] "total") ∧
    (getField (getReceiptHeaderData (.obj []) [("company", coNew)]) "company"
      = getField [("company", coNew)] "company") :=
  ⟨((c6_superset_invariant selfA0 selfB0
      [("headerData", .obj [("company", .obj [("name", .str "Old Co")])]),
        ("total", .num 42)] [("company", coNew)] (.obj [])).1
      [("headerData", .obj [("company", coNew)]), ("total", .num 42),
        ("is_fiscal_order", .undefined), ("non_fiscal_qr_data", .undefined)] rfl).1
      "total" (by decide) (by decide) (by decide),
   ((c6_superset_invariant selfA0 selfB0
      [("headerData", .obj [("company", .obj [("name", .str "Old Co")])]),
        ("total", .num 42)] [("company", coNew)] (.obj [])).2.1
      [("headerData", .obj [("company", coNew)]), ("total", .num 42),
        ("is_fiscal_order", .undefined), ("non_fiscal_qr_data", .undefined)] rfl).1
      "total" (by decide) (by decide) (by decide),
   (c6_superset_invariant selfA0 selfB0
      [("headerData", .obj [("company", .obj [("name", .str "Old Co")])]),
        ("total", .num 42)] [("company", coNew)] (.obj [])).2.2
      "company" (by decide) (by decide)⟩

/-- Claim C7: the print-export augmentation is idempotent.  Feeding a
successful export back in as the base export (which is what invoking the
in-place JS augmentation twice on the same order/export pair does)
reproduces it unchanged, in both variants; a failed first run stays
failed. -/
theorem c7_export_idempotent (selfA selfB e : JsObj) :
    (VariantA.export_for_printing selfA e).bind
        (VariantA.export_for_printing selfA)
      = VariantA.export_for_printing selfA e ∧
    (VariantB.export_for_printing selfB e).bind
        (VariantB.export_for_printing selfB)
      = VariantB.export_for_printing selfB e := by
  constructor
  · cases he : VariantA.export_for_printing selfA e with
    | none => rfl
    | some r =>
        simp only [Option.some_bind]
        rw [← he]
        rcases exportA_inv selfA e r he with ⟨hd, hh, hc, hrEq⟩ | ⟨hg, hrEq⟩
        · have hh2 : getField r "headerData"
              = .obj (setField hd "company"
                  (getField selfA "order_company_data")) := by
            rw [hrEq]; simp
          rw [exportA_eq_of_obj selfA r _ hc hh2, he]
          have habs : setField
              (setField hd "company" (getField selfA "order_company_data"))
              "company" (getField selfA "order_company_data")
              = setField hd "company"
                  (getField selfA "order_company_data") :=
            setField_absorb_of _ _ _ (by simp) (by simp)
          rw [habs]
          have habs2 : setField r "headerData"
              (.obj (setField hd "company"
                (getField selfA "order_company_data"))) = r :=
            setField_absorb_of _ _ _ (by rw [hrEq]; simp) hh2
          rw [habs2, hrEq, tail_absorb]
        · have hh2 : getField r "headerData" = getField e "headerData" := by
            rw [hrEq]; simp
          have hg2 : (truthy (getField selfA "order_company_data")
              && truthy (getField r "headerData")) = false := by
            rw [hh2]; exact hg
          rw [exportA_eq_of_skip selfA r hg2, he, hrEq, tail_absorb]
  · cases he : VariantB.export_for_printing selfB e with
    | none => rfl
    | some r =>
        simp only [Option.some_bind]
        rw [← he]
        rcases exportB_inv selfB e r he with ⟨hd, hh, hc, hrEq⟩ | ⟨hg, hrEq⟩
        · have hh2 : getField r "headerData"
              = .obj (setField hd "company"
                  (getField selfB "company_data")) := by
            rw [hrEq]; simp
          rw [exportB_eq_of_obj selfB r _ hc hh2, he]
          have habs : setField
              (setField hd "company" (getField selfB "company_data"))
              "company" (getField selfB "company_data")
              = setField hd "company" (getField selfB "company_data") :=
            setField_absorb_of _ _ _ (by simp) (by simp)
          rw [habs]
          have habs2 : setField r "headerData"
              (.obj (setField hd "company"
                (getField selfB "company_data"))) = r :=
            setField_absorb_of _ _ _ (by rw [hrEq]; simp) hh2
          rw [habs2, hrEq, tail_absorb]
        · have hh2 : getField r "headerData" = getField e "headerData" := by
            rw [hrEq]; simp
          have hg2 : (truthy (getField selfB "company_data")
              && truthy (getField r "headerData")) = false := by
            rw [hh2]; exact hg
          rw [exportB_eq_of_skip selfB r hg2, he, hrEq, tail_absorb]

/-- Counterexample to C8 as stated: with a truthy company override and a
base export whose `headerData` is a truthy primitive (here the non-empty
string "oops"), the guard passes and the strict-mode member assignment
`result.headerData.company = ...` raises a TypeError — the print-export
operation does fail for this input, in both variants. -/
theorem c8_counterexample :
    VariantA.export_for_printing selfA0 eBad = none ∧
    VariantB.export_for_printing selfB0 eBad = none :=
  ⟨rfl, rfl⟩

/-- Claim C8 amended: with a truthy company override and a base export
lacking `headerData`, the override step is skipped silently and the
export still succeeds with the two custom fields set; the export also
succeeds whenever `headerData` is an object or falsy — its only failure
mode is a truthy non-object `headerData` meeting a truthy override. -/
theorem c8_guarded_skip (selfA selfB e : JsObj) :
    (truthy (getField selfA "order_company_data") = true →
      getField e "headerData" = .undefined →
      ∃ r, VariantA.export_for_printing selfA e = some r ∧
        getField r "headerData" = .undefined ∧
        getField r "is_fiscal_order" = getField selfA "is_fiscal_order" ∧
        getField r "non_fiscal_qr_data"
          = getField selfA "non_fiscal_qr_data") ∧
    (truthy (getField selfB "company_data") = true →
      getField e "headerData" = .undefined →
      ∃ r, VariantB.export_for_printing selfB e = some r ∧
        getField r "headerData" = .undefined ∧
        getField r "is_fiscal_order" = getField selfB "is_fiscal_order" ∧
        getField r "non_fiscal_qr_data"
          = getField selfB "non_fiscal_qr_data") ∧
    ((∃ hd, getField e "headerData" = .obj hd) ∨
        truthy (getField e "headerData") = false →
      (VariantA.export_for_printing selfA e).isSome = true ∧
      (VariantB.export_for_printing selfB e).isSome = true) := by
  refine ⟨fun _ hh => ?_, fun _ hh => ?_, fun hor => ⟨?_, ?_⟩⟩
  · refine ⟨_, exportA_eq_of_skip selfA e (by simp [hh]), ?_, ?_, ?_⟩ <;>
      simp [hh]
  · refine ⟨_, exportB_eq_of_skip selfB e (by simp [hh]), ?_, ?_, ?_⟩ <;>
      simp [hh]
  · rcases hor with ⟨hd, hh⟩ | hf
    · by_cases hc : truthy (getField selfA "order_company_data") = true
      · rw [exportA_eq_of_obj selfA e hd hc hh]; rfl
      · rw [exportA_eq_of_skip selfA e
          (by simp [Bool.eq_false_iff.mpr hc])]; rfl
    · rw [exportA_eq_of_skip selfA e (by simp [hf])]; rfl
  · rcases hor with ⟨hd, hh⟩ | hf
    · by_cases hc : truthy (getField selfB "company_data") = true
      · rw [exportB_eq_of_obj selfB e hd hc hh]; rfl
      · rw [exportB_eq_of_skip selfB e
          (by simp [Bool.eq_false_iff.mpr hc])]; rfl
    · rw [exportB_eq_of_skip selfB e (by simp [hf])]; rfl

/-- Witness for the amended C8: a truthy override over the empty base
export (no `headerData`) succeeds in both variants, and both variants
succeed over a well-formed base export carrying an object `headerData`. -/
theorem c8_witness :
    (∃ r, VariantA.export_for_printing selfA0 [] = some r ∧
        getField r "headerData" = .undefined ∧
        getField r "is_fiscal_order" = getField selfA0 "is_fiscal_order" ∧
        getField r "non_fiscal_qr_data"
          = getField selfA0 "non_fiscal_qr_data") ∧
    (∃ r, VariantB.export_for_printing selfB0 [] = some r ∧
        getField r "headerData" = .undefined ∧
        getField r "is_fiscal_order" = getField selfB0 "is_fiscal_order" ∧
        getField r "non_fiscal_qr_data"
          = getField selfB0 "non_fiscal_qr_data") ∧
    ((VariantA.export_for_printing selfA0 e0).isSome = true ∧
      (VariantB.export_for_printing selfB0 e0).isSome = true) :=
  ⟨(c8_guarded_skip selfA0 selfB0 []).1 rfl rfl,
   (c8_guarded_skip selfA0 selfB0 []).2.1 rfl rfl,
   (c8_guarded_skip selfA0 selfB0 e0).2.2
     (Or.inl ⟨[("company", .obj [("name", .str "Old Co")])], rfl⟩)⟩

/-- Claim C9: both setup variants normalize an absent (`undefined`)
`is_fiscal_order` to `true`; on an explicit `null` they diverge — the
`!== undefined` ternary of Variant A keeps `null`, the nullish
coalescing of Variant B yields `true`. -/
theorem c9_variants_default_agreement (selfA selfB vals : JsObj) :
    (getField vals "is_fiscal_order" = .undefined →
      getField (VariantA.setup selfA vals) "is_fiscal_order" = .bool true ∧
      getField (VariantB.setup selfB vals) "is_fiscal_order" = .bool true) ∧
    (getField vals "is_fiscal_order" = .null →
      getField (VariantA.setup selfA vals) "is_fiscal_order" = .null ∧
      getField (VariantB.setup selfB vals) "is_fiscal_order" = .bool true ∧
      getField (VariantA.setup selfA vals) "is_fiscal_order"
        ≠ getField (VariantB.setup selfB vals) "is_fiscal_order") := by
  refine ⟨fun h => ⟨?_, ?_⟩, fun h => ?_⟩
  · simp [VariantA.setup, h, isUndefined]
  · simp [VariantB.setup, h, isNullish]
  · have hA : getField (VariantA.setup selfA vals) "is_fiscal_order"
        = .null := by
      simp [VariantA.setup, h, isUndefined]
    have hB : getField (VariantB.setup selfB vals) "is_fiscal_order"
        = .bool true := by
      simp [VariantB.setup, h, isNullish]
    refine ⟨hA, hB, ?_⟩
    rw [hA, hB]
    intro hc
    exact JsVal.noConfusion hc

/-- Witness for C9: agreement at the empty bag, divergence at
`{is_fiscal_order: null}`. -/
theorem c9_witness :
    (getField (VariantA.setup [] []) "is_fiscal_order" = .bool true ∧
      getField (VariantB.setup [] []) "is_fiscal_order" = .bool true) ∧
    (getField (VariantA.setup [] [("is_fiscal_order", .null)])
        "is_fiscal_order" = .null ∧
      getField (VariantB.setup [] [("is_fiscal_order", .null)])
        "is_fiscal_order" = .bool true ∧
      getField (VariantA.setup [] [("is_fiscal_order", .null)])
        "is_fiscal_order"
        ≠ getField (VariantB.setup [] [("is_fiscal_order", .null)])
            "is_fiscal_order") :=
  ⟨(c9_variants_default_agreement [] [] []).1 rfl,
   (c9_variants_default_agreement [] [] [("is_fiscal_order", .null)]).2 rfl⟩

/-- Claim C10: after either setup, `non_fiscal_qr_data` and the
company-override field are each either truthy or exactly the boolean
`false` — never `undefined`, `null` or the empty string — and any falsy
raw value (including `""`) is normalized to `false`; likewise the two
fields `getReceiptHeaderData` writes are each either the order's truthy
value or exactly `false`. -/
theorem c10_sentinel_invariant (selfA selfB vals data : JsObj)
    (ov : JsVal) :
    truthyOrFalse
      (getField (VariantA.setup selfA vals) "non_fiscal_qr_data") ∧
    truthyOrFalse
      (getField (VariantA.setup selfA vals) "order_company_data") ∧
    truthyOrFalse
      (getField (VariantB.setup selfB vals) "non_fiscal_qr_data") ∧
    truthyOrFalse (getField (VariantB.setup selfB vals) "company_data") ∧
    (truthy (getField vals "non_fiscal_qr_data") = false →
      getField (VariantA.setup selfA vals) "non_fiscal_qr_data"
        = .bool false ∧
      getField (VariantB.setup selfB vals) "non_fiscal_qr_data"
        = .bool false) ∧
    (truthy (getField vals "order_company_data") = false →
      getField (VariantA.setup selfA vals) "order_company_data"
        = .bool false) ∧
    (truthy (getField vals "company_data") = false →
      getField (VariantB.setup selfB vals) "company_data" = .bool false) ∧
    (truthy ov = true →
      truthyOrFalse
        (getField (getReceiptHeaderData ov data) "is_fiscal_order") ∧
      truthyOrFalse
        (getField (getReceiptHeaderData ov data) "non_fiscal_qr_data")) := by
  have hAqr : getField (VariantA.setup selfA vals) "non_fiscal_qr_data"
      = jsOr (getField vals "non_fiscal_qr_data") (.bool false) := by
    simp [VariantA.setup]
  have hAco : getField (VariantA.setup selfA vals) "order_company_data"
      = jsOr (getField vals "order_company_data") (.bool false) := by
    simp [VariantA.setup]
  have hBqr : getField (VariantB.setup selfB vals) "non_fiscal_qr_data"
      = jsOr (getField vals "non_fiscal_qr_data") (.bool false) := by
    simp [VariantB.setup]
  have hBco : getField (VariantB.setup selfB vals) "company_data"
      = jsOr (getField vals "company_data") (.bool false) := by
    simp [VariantB.setup]
  refine ⟨?_, ?_, ?_, ?_, fun h => ⟨?_, ?_⟩, fun h => ?_, fun h => ?_,
    fun ht => ⟨?_, ?_⟩⟩
  · unfold truthyOrFalse; rw [hAqr]; exact jsOr_false_cases _
  · unfold truthyOrFalse; rw [hAco]; exact jsOr_false_cases _
  · unfold truthyOrFalse; rw [hBqr]; exact jsOr_false_cases _
  · unfold truthyOrFalse; rw [hBco]; exact jsOr_false_cases _
  · rw [hAqr]; exact jsOr_of_falsy _ _ h
  · rw [hBqr]; exact jsOr_of_falsy _ _ h
  · rw [hAco]; exact jsOr_of_falsy _ _ h
  · rw [hBco]; exact jsOr_of_falsy _ _ h
  · have h1 : getField (getReceiptHeaderData ov data) "is_fiscal_order"
        = jsOr (getProp ov "is_fiscal_order") (.bool false) := by
      simp [getReceiptHeaderData, ht]
    unfold truthyOrFalse; rw [h1]; exact jsOr_false_cases _
  · have h2 : getField (getReceiptHeaderData ov data) "non_fiscal_qr_data"
        = jsOr (getProp ov "non_fiscal_qr_data") (.bool false) := by
      simp [getReceiptHeaderData, ht]
    unfold truthyOrFalse; rw [h2]; exact jsOr_false_cases _

/-- Witness for C10: empty-string raw values are normalized to `false`,
and the header-data fields obey the sentinel discipline on a concrete
order. -/
theorem c10_witness :
    (getField (VariantA.setup []
        [("non_fiscal_qr_data", .str ""), ("order_company_data", .str ""),
          ("company_data", .str "")]) "non_fiscal_qr_data" = .bool false ∧
      getField (VariantB.setup []
        [("non_fiscal_qr_data", .str ""), ("order_company_data", .str ""),
          ("company_data", .str "")]) "non_fiscal_qr_data" = .bool false) ∧
    getField (VariantA.setup []
        [("non_fiscal_qr_data", .str ""), ("order_company_data", .str ""),
          ("company_data", .str "")]) "order_company_data" = .bool false ∧
    getField (VariantB.setup []
        [("non_fiscal_qr_data", .str ""), ("order_company_data", .str ""),
          ("company_data", .str "")]) "company_data" = .bool false ∧
    (truthyOrFalse
        (getField (getReceiptHeaderData (.obj []) []) "is_fiscal_order") ∧
      truthyOrFalse
        (getField (getReceiptHeaderData (.obj []) [])
          "non_fiscal_qr_data")) :=
  ⟨(c10_sentinel_invariant [] []
      [("non_fiscal_qr_data", .str ""), ("order_company_data", .str ""),
        ("company_data", .str "")] [] (.obj [])).2.2.2.2.1 rfl,
   (c10_sentinel_invariant [] []
      [("non_fiscal_qr_data", .str ""), ("order_company_data", .str ""),
        ("company_data", .str "")] [] (.obj [])).2.2.2.2.2.1 rfl,
   (c10_sentinel_invariant [] []
      [("non_fiscal_qr_data", .str ""), ("order_company_data", .str ""),
        ("company_data", .str "")] [] (.obj [])).2.2.2.2.2.2.1 rfl,
   (c10_sentinel_invariant [] []
      [("non_fiscal_qr_data", .str ""), ("order_company_data", .str ""),
        ("company_data", .str "")] [] (.obj [])).2.2.2.2.2.2.2 rfl⟩
